import Mathlib

/-!
Verification development for the slop_app feed / preference / generation-queue
engine.  The Python services are shallowly embedded: float arithmetic is
idealised to exact rationals (with the reals only at the final L2
normalisation, which divides by a square root), Redis sorted sets become
association lists of (member, score) pairs, and external collaborators
(Pinecone, S3, the LLM and the video generation backend) become explicit
parameters.
-/

namespace Slop

/-! ## Preference engine (`user_preference_service.py`) -/

/-- Interaction-type weight table from `UserPreferenceService.__init__`
(`self.interaction_weights`), with the float literals as exact rationals. -/
def interactionWeights : List (String × ℚ) :=
  [("like", 2), ("save", 5/2), ("comment", 9/5), ("share", 11/5),
   ("view", 1), ("skip", 1/5), ("dislike", 1/10)]

/-- `UserPreferenceService._get_interaction_weight`: table lookup with default
weight 0.5 (this is the weight persisted on the interaction row). -/
def getInteractionWeight (t : String) : ℚ :=
  (interactionWeights.lookup t).getD (1/2)

/-- The weight used inside `_calculate_preference_vector` (line 362):
`self.interaction_weights.get(interaction_type, 0.0)` — default 0, not 0.5. -/
def recomputeWeight (t : String) : ℚ :=
  (interactionWeights.lookup t).getD 0

/-- One row of the `user_interactions` table, as read back by
`_calculate_preference_vector` / `get_user_interactions` (the fields the
recompute touches, plus the stored `weight` column). -/
structure InteractionRow where
  interactionType : String
  weight : ℚ
  embedding : List ℚ
deriving DecidableEq

/-- The row persisted by `store_user_interaction`: the stored weight comes from
`_get_interaction_weight` (default 0.5 for unknown types). -/
def mkInteractionRow (t : String) (emb : List ℚ) : InteractionRow :=
  { interactionType := t, weight := getInteractionWeight t, embedding := emb }

/-- `UserPreferenceService._get_default_preference`: the neutral all-zero
vector of dimension 1536. -/
def defaultPreference : List ℚ := List.replicate 1536 0

/-- Total of the recompute weights over the window
(`total_weight` accumulated in `_calculate_preference_vector`). -/
def totalRecomputeWeight (rows : List InteractionRow) : ℚ :=
  (rows.map (fun r => recomputeWeight r.interactionType)).sum

/-- Component `i` of the weighted sum accumulated in
`_calculate_preference_vector` (`weighted_sum[i]`). -/
def weightedComponent (rows : List InteractionRow) (i : ℕ) : ℚ :=
  (rows.map (fun r => r.embedding.getD i 0 * recomputeWeight r.interactionType)).sum

/-- The working dimension of `_calculate_preference_vector`:
`dimension = len(first_embedding)`, i.e. the length of the first row's
embedding (0 for an empty window, where the source never reaches this). -/
def prefDimension (rows : List InteractionRow) : ℕ :=
  (rows.head?.map (fun r => r.embedding.length)).getD 0

/-- The pre-normalisation preference vector of `_calculate_preference_vector`:
the weighted average when `total_weight > 0`, the default zero vector
otherwise (and for the empty window, which returns the default directly). -/
def rawPreference (rows : List InteractionRow) : List ℚ :=
  if rows = [] then defaultPreference
  else if 0 < totalRecomputeWeight rows then
    (List.range (prefDimension rows)).map
      (fun i => weightedComponent rows i / totalRecomputeWeight rows)
  else defaultPreference

/-- Sum of squares of a rational vector (`sum(x * x for x in vector)`). -/
def sumSq (v : List ℚ) : ℚ := (v.map (fun x => x * x)).sum

/-- Pointwise cast of a rational vector into the reals. -/
def castVec (v : List ℚ) : List ℝ := v.map (fun x : ℚ => (x : ℝ))

/-- `UserPreferenceService._l2_normalize`.  The source guards on
`magnitude == 0` with `magnitude = sqrt(sum of squares)`; since the radicand is
a sum of squares, that guard is equivalent to `sumSq v = 0`, which keeps the
branch condition rational.  The output lives in `ℝ` because of the square
root. -/
noncomputable def l2Normalize (v : List ℚ) : List ℝ :=
  if sumSq v = 0 then castVec v
  else v.map (fun x : ℚ => (x : ℝ) / Real.sqrt ((sumSq v : ℚ) : ℝ))

/-- L2 magnitude of a real vector (`math.sqrt(sum(x * x for x in vector))`). -/
noncomputable def l2Magnitude (v : List ℝ) : ℝ :=
  Real.sqrt ((v.map (fun x => x * x)).sum)

/-- `UserPreferenceService._calculate_preference_vector` on the interaction
window it fetched (last 20 rows, newest first).  An empty window returns the
default vector directly.  A window in which some embedding is shorter than the
first row's raises `IndexError` in the source, which the enclosing
`try/except` turns into the default vector; the uniform-dimension guard models
that path. -/
noncomputable def calculatePreferenceVector (rows : List InteractionRow) : List ℝ :=
  if rows = [] then castVec defaultPreference
  else if rows.all (fun r => prefDimension rows ≤ r.embedding.length) then
    l2Normalize (rawPreference rows)
  else castVec defaultPreference

/-! ## Feed queue (`redis_service.py` plus its callers)

A Redis sorted set is modelled as an association list of (member, score)
pairs whose keys are unique (zadd semantics keep them so). -/

/-- A per-user feed: (video id, score) pairs. -/
abbrev Feed := List (String × ℚ)

/-- Redis `ZADD key score member`: update the score when the member exists,
append it otherwise (members of a sorted set are unique, so at most one entry
carries the id). -/
def zaddFeed : Feed → String → ℚ → Feed
  | [], id, s => [(id, s)]
  | p :: rest, id, s =>
    if p.1 = id then (id, s) :: rest else p :: zaddFeed rest id s

/-- `RedisService.add_to_feed`: both a fresh insert and a score update of an
existing member return `True`. -/
def addToFeed (f : Feed) (id : String) (s : ℚ) : Bool × Feed :=
  (true, zaddFeed f id s)

/-- Target size of the feed queue (`target_feed_size = 10`, also the literal
`target_feed_size = 10` inside `_clear_feed_space_for_new_videos`). -/
def targetFeedSize : ℕ := 10

/-- Redis `ZREMRANGEBYRANK key 0 (k-1)`: drop the `k` lowest-scored members. -/
def zremLowestRanked (f : Feed) (k : ℕ) : Feed :=
  (f.mergeSort (fun a b => decide (a.2 ≤ b.2))).drop k

/-- `VideoGenerationQueueService._clear_feed_space_for_new_videos`: when the
planned insertion would push the feed above the 10-entry target, evict the
lowest-ranked entries first. -/
def clearFeedSpaceForNewVideos (f : Feed) (numNew : ℕ) : Feed :=
  if targetFeedSize < f.length + numNew then
    zremLowestRanked f (f.length + numNew - targetFeedSize)
  else f

/-- `VideoGenerationQueueService._add_videos_to_user_feed` (and the zadd loop
of `_add_top_existing_videos_to_feed`): add each selected video with its score,
with no eviction of its own. -/
def addVideosToUserFeed (f : Feed) (vids : List (String × ℚ)) : Feed :=
  vids.foldl (fun acc v => zaddFeed acc v.1 v.2) f

/-- `VideoGenerationQueueService._add_top_existing_videos_to_feed`: take the
top `maxVideos` candidates and zadd each at score similarity + freshness boost.
No eviction happens on this path. -/
def addTopExistingVideosToFeed (f : Feed) (candidates : List (String × ℚ))
    (freshnessBoost : ℚ) (maxVideos : ℕ) : Feed :=
  (candidates.take maxVideos).foldl
    (fun acc v => zaddFeed acc v.1 (v.2 + freshnessBoost)) f

/-- `BackgroundVideoWorker._add_generated_video_to_feed`: zadd the freshly
generated video at score 0.9 + 0.1.  No eviction happens on this path. -/
def addGeneratedVideoToFeed (f : Feed) (videoId : String) : Feed :=
  zaddFeed f videoId (9/10 + 1/10)

/-! ## Infinite feed reads (`infinite_feed_service.py`) -/

/-- `InfiniteFeedService.__init__`: `refill_threshold = 2`. -/
def refillThreshold : ℤ := 2

/-- Whether at least one synchronous refill runs during `get_feed`'s
non-refresh path before the page is served.  `n` is the feed size on entry,
`c`/`k` the request cursor and limit, and `nAfterRefill` the size the external
rebuild (`_refill_infinite_feed`) leaves behind.  First check (line 83):
`remaining_after_request <= refill_threshold`; second check (line 97): the
cursor-overflow test against the possibly already refilled size. -/
def refillOccursOnRead (n c k nAfterRefill : ℕ) : Bool :=
  let firstRefill : Bool := decide ((n : ℤ) - ((c : ℤ) + (k : ℤ)) ≤ refillThreshold)
  let sizeNow : ℕ := if firstRefill then nAfterRefill else n
  firstRefill || decide (sizeNow ≤ c)

/-- A feed page request (`FeedRequest`): cursor, page size, refresh flag. -/
structure FeedReq where
  cursor : ℕ
  limit : ℕ
  refresh : Bool
deriving DecidableEq

/-- The collaborator outcomes one `get_feed` call can observe: the feed size
on entry, the result of `_initialize_infinite_feed` (`none` = failure), and
the size `_refill_infinite_feed` rebuilds to. -/
structure FeedEnv where
  feedSize : ℕ
  initResult : Option ℕ
  refillSize : ℕ
deriving DecidableEq

/-- The response fields of `get_feed` the claims talk about. -/
structure FeedResp where
  success : Bool
  hasMore : Bool
  cursor : ℕ
  nextCursor : Option ℕ
  feedSize : ℕ
  videosReturned : ℕ
deriving DecidableEq

/-- Number of members `ZREVRANGE key start (start+count-1)` yields on a set of
cardinality `n`. -/
def pageCount (n start count : ℕ) : ℕ := min count (n - start)

/-- The main path of `get_feed` once the feed exists (source lines 79-175):
low-feed refill check, cursor-overflow refill and cursor reset, then the page
read.  Both refills are modelled by the rebuilt size `env.refillSize`. -/
def getFeedMain (req : FeedReq) (env : FeedEnv) (n1 : ℕ) : FeedResp :=
  let n2 : ℕ :=
    if (n1 : ℤ) - ((req.cursor : ℤ) + (req.limit : ℤ)) ≤ refillThreshold then
      env.refillSize
    else n1
  let c2 : ℕ :=
    if n2 ≤ req.cursor then (if env.refillSize ≤ req.cursor then 0 else req.cursor)
    else req.cursor
  let n3 : ℕ := if n2 ≤ req.cursor then env.refillSize else n2
  let returned : ℕ := pageCount n3 c2 req.limit
  { success := true, hasMore := true, cursor := c2,
    nextCursor := some (c2 + returned), feedSize := n3, videosReturned := returned }

/-- `InfiniteFeedService.get_feed`: on a refresh request or an empty feed the
feed is first rebuilt by `_initialize_infinite_feed`; when that fails the
early-return response of lines 67-76 is produced (note `has_more := false`
there).  Otherwise the main path runs. -/
def getFeed (req : FeedReq) (env : FeedEnv) : FeedResp :=
  if req.refresh || env.feedSize == 0 then
    match env.initResult with
    | none =>
      { success := false, hasMore := false, cursor := req.cursor,
        nextCursor := none, feedSize := 0, videosReturned := 0 }
    | some n1 => getFeedMain req env n1
  else getFeedMain req env env.feedSize

/-- The exception handler of `get_feed` (lines 177-188): even on error the
response suggests there might be more (`has_more=True`). -/
def getFeedErrorResp (req : FeedReq) : FeedResp :=
  { success := false, hasMore := true, cursor := req.cursor,
    nextCursor := none, feedSize := 0, videosReturned := 0 }

/-! ## Generation task queue (`video_generation_queue_service.py`,
`background_video_worker.py`)

Queue items are JSON blobs in a Redis sorted set; we model the fields the
orchestrator and worker read.  `zrevrange` iteration order (highest score
first) is the list order; a remove-then-reinsert at an unchanged score is an
in-place rewrite of that entry. -/

/-- A generation-queue item (`queue_item` JSON blob). -/
structure GenTask where
  taskType : String
  prompt : String
  status : String
  startedAt : Option ℚ
  userId : String
deriving DecidableEq

/-- The claim step of `get_next_generation_task` (lines 905-906): flip the
item to `in_progress` and stamp `started_at` with the current time. -/
def claimTask (t : GenTask) (now : ℚ) : GenTask :=
  { t with status := "in_progress", startedAt := some now }

/-- `VideoGenerationQueueService.get_next_generation_task`: scan the queue in
descending-score order for the first `generate_video` item whose status is
`pending_generation`; claim it, persist the rewrite (zrem + zadd at the same
score), and return it together with the updated queue. -/
def getNextGenerationTask (now : ℚ) :
    List (GenTask × ℚ) → Option GenTask × List (GenTask × ℚ)
  | [] => (none, [])
  | (t, s) :: rest =>
    if t.taskType = "generate_video" ∧ t.status = "pending_generation" then
      (some (claimTask t now), (claimTask t now, s) :: rest)
    else
      let p := getNextGenerationTask now rest
      (p.1, (t, s) :: p.2)

/-- The stuck-task test of `reset_stuck_tasks` (lines 1099-1107): a
`generate_video` item that is `in_progress`, carries a `started_at` stamp, and
whose age (in minutes) strictly exceeds `max_age_minutes`. -/
def isStuck (now maxAge : ℚ) (t : GenTask) : Bool :=
  t.taskType == "generate_video" && t.status == "in_progress" &&
    (match t.startedAt with
     | some st => decide (maxAge < now - st)
     | none => false)

/-- The reset applied to a stuck task (lines 1109-1110): back to
`pending_generation`, `started_at` popped. -/
def resetTask (t : GenTask) : GenTask :=
  { t with status := "pending_generation", startedAt := none }

/-- `VideoGenerationQueueService.reset_stuck_tasks`: rewrite every stuck task
in place at its existing score and count the resets. -/
def resetStuckTasks (now maxAge : ℚ) :
    List (GenTask × ℚ) → ℕ × List (GenTask × ℚ)
  | [] => (0, [])
  | (t, s) :: rest =>
    let p := resetStuckTasks now maxAge rest
    if isStuck now maxAge t then (p.1 + 1, (resetTask t, s) :: p.2)
    else (p.1, (t, s) :: p.2)

/-- `BackgroundVideoWorker._mark_task_failed` applied to the matching queue
entry: status `failed` (the `failed_at`/`error` fields are dropped by the
model, and `started_at` is kept as the source keeps it). -/
def markTaskFailed (t : GenTask) : GenTask :=
  { t with status := "failed" }

/-! ## Single-video generation per preference refresh
(`_generate_single_new_video` and its helpers) -/

/-- Python `str.lstrip('-* ')`. -/
def stripLeadingBullet (s : String) : String :=
  s.dropWhile (fun c => c = '-' || c = '*' || c = ' ')

/-- The response clean-up of `_generate_single_prompt_with_llm`
(lines 616-632): trim, strip one leading numbering/bullet marker, and return
at most one prompt. -/
def cleanSinglePrompt (text : String) : List String :=
  let t0 := text.trim
  let t1 :=
    if t0.startsWith "1." || t0.startsWith "2." || t0.startsWith "3."
        || t0.startsWith "-" || t0.startsWith "*" then
      if t0.contains '.' then
        (String.intercalate "." ((t0.splitOn ".").drop 1)).trim
      else stripLeadingBullet t0
    else t0
  if t1 = "" then [] else [t1]

/-- `_generate_single_prompt_with_llm` as a function of the external LLM
response text (`none` models an empty/absent response, which yields no
prompt). -/
def generateSinglePromptWithLLM (respText : Option String) : List String :=
  match respText with
  | none => []
  | some text => cleanSinglePrompt text

/-- The reference prompts handed to the LLM by `_generate_single_new_video`
(line 348): the top 5 retrieved candidate prompts. -/
def referencePromptsForSingleVideo (existingPrompts : List String) : List String :=
  existingPrompts.take 5

/-- The `pending_generation` queue item built by
`_add_prompts_to_generation_queue` for prompt `p`. -/
def mkGenerationTask (user : String) (p : String) : GenTask :=
  { taskType := "generate_video", prompt := p, status := "pending_generation",
    startedAt := none, userId := user }

/-- `_add_prompts_to_generation_queue`: zadd one `pending_generation` item per
prompt, at priority score `len(prompts) - i`. -/
def addPromptsToGenerationQueue (user : String) (prompts : List String)
    (q : List (GenTask × ℚ)) : List (GenTask × ℚ) :=
  q ++ prompts.enum.map
    (fun ip => (mkGenerationTask user ip.2, ((prompts.length - ip.1 : ℕ) : ℚ)))

/-- The generation-queue effect of one `_generate_single_new_video` run: the
prompts produced from the LLM response are enqueued as pending tasks. -/
def generateSingleNewVideoQueue (user : String) (respText : Option String)
    (q : List (GenTask × ℚ)) : List (GenTask × ℚ) :=
  addPromptsToGenerationQueue user (generateSinglePromptWithLLM respText) q

/-- Predicate for a claimable pending generation item (the test on
lines 902-903 of the queue service). -/
def isPendingGeneration (t : GenTask) : Bool :=
  t.taskType == "generate_video" && t.status == "pending_generation"

/-! ## Helper lemmas -/

theorem getFeedMain_hasMore (req : FeedReq) (env : FeedEnv) (n1 : ℕ) :
    (getFeedMain req env n1).hasMore = true := rfl

theorem getNext_spec (now : ℚ) (q : List (GenTask × ℚ)) (t' : GenTask)
    (q' : List (GenTask × ℚ)) (h : getNextGenerationTask now q = (some t', q')) :
    ∃ pre t s post, q = pre ++ (t, s) :: post ∧
      t.taskType = "generate_video" ∧ t.status = "pending_generation" ∧
      t' = claimTask t now ∧ q' = pre ++ (claimTask t now, s) :: post := by
  induction q generalizing q' with
  | nil => simp [getNextGenerationTask] at h
  | cons hd rest ih =>
    obtain ⟨t0, s0⟩ := hd
    simp only [getNextGenerationTask] at h
    split at h
    case isTrue hc =>
      rw [Prod.mk.injEq] at h
      obtain ⟨h1, h2⟩ := h
      injection h1 with h1
      exact ⟨[], t0, s0, rest, rfl, hc.1, hc.2, h1.symm, h2.symm⟩
    case isFalse hc =>
      rw [Prod.mk.injEq] at h
      obtain ⟨h1, h2⟩ := h
      obtain ⟨pre, t, s, post, hq, ha, hb, hd, he⟩ :=
        ih (getNextGenerationTask now rest).2 (by rw [← h1])
      exact ⟨(t0, s0) :: pre, t, s, post, by rw [hq]; rfl, ha, hb, hd,
        by rw [← h2, he]; rfl⟩

theorem zadd_zadd (f : Feed) (id : String) (s s' : ℚ) :
    zaddFeed (zaddFeed f id s) id s' = zaddFeed f id s' := by
  induction f with
  | nil => simp [zaddFeed]
  | cons p rest ih =>
    by_cases hk : p.1 = id
    · simp [zaddFeed, hk]
    · simp [zaddFeed, hk, ih]

theorem mem_zadd (f : Feed) (id : String) (s : ℚ) : (id, s) ∈ zaddFeed f id s := by
  induction f with
  | nil => simp [zaddFeed]
  | cons p rest ih =>
    by_cases hk : p.1 = id
    · simp [zaddFeed, hk]
    · simp [zaddFeed, hk]
      right
      exact ih

theorem countP_zadd (f : Feed) (id : String) (s : ℚ)
    (hnd : (f.map Prod.fst).Nodup) :
    (zaddFeed f id s).countP (fun p => p.1 == id) = 1 := by
  induction f with
  | nil => simp [zaddFeed]
  | cons hd rest ih =>
    simp only [List.map_cons, List.nodup_cons] at hnd
    by_cases hk : hd.1 = id
    · have hcount : rest.countP (fun p => p.1 == id) = 0 :=
        List.countP_eq_zero.mpr (fun p hp => by
          simp only [beq_iff_eq]
          intro hpe
          exact hnd.1 (hk ▸ hpe ▸ List.mem_map_of_mem Prod.fst hp))
      simp [zaddFeed, hk, List.countP_cons, hcount]
    · simp only [zaddFeed, if_neg hk, List.countP_cons]
      rw [ih hnd.2]
      simp [hk]

theorem zadd_length_le (f : Feed) (id : String) (s : ℚ) :
    (zaddFeed f id s).length ≤ f.length + 1 := by
  induction f with
  | nil => simp [zaddFeed]
  | cons p rest ih =>
    by_cases hk : p.1 = id
    · simp [zaddFeed, hk]
    · simp only [zaddFeed, if_neg hk, List.length_cons]
      omega

theorem addVideos_length_le (vids : List (String × ℚ)) (f : Feed) :
    (addVideosToUserFeed f vids).length ≤ f.length + vids.length := by
  induction vids generalizing f with
  | nil => simp [addVideosToUserFeed]
  | cons v rest ih =>
    unfold addVideosToUserFeed at ih ⊢
    simp only [List.foldl_cons]
    have h1 := ih (zaddFeed f v.1 v.2)
    have h2 := zadd_length_le f v.1 v.2
    simp only [List.length_cons]
    omega

theorem clearFeedSpace_length (f : Feed) (n : ℕ) (hn : n ≤ targetFeedSize) :
    (clearFeedSpaceForNewVideos f n).length ≤ targetFeedSize - n := by
  unfold clearFeedSpaceForNewVideos zremLowestRanked
  split
  · rename_i h
    rw [List.length_drop, List.length_mergeSort]
    omega
  · rename_i h
    simp only [not_lt] at h
    omega

theorem sumSq_nonneg (v : List ℚ) : 0 ≤ sumSq v := by
  unfold sumSq
  induction v with
  | nil => simp
  | cons x rest ih =>
    simp only [List.map_cons, List.sum_cons]
    have : 0 ≤ x * x := mul_self_nonneg x
    linarith

theorem sumSq_replicate_zero (n : ℕ) : sumSq (List.replicate n 0) = 0 := by
  unfold sumSq
  simp

theorem sumSqR_map_div (v : List ℚ) (m : ℝ) :
    ((v.map (fun x : ℚ => (x : ℝ) / m)).map (fun x => x * x)).sum
      = ((sumSq v : ℚ) : ℝ) / (m * m) := by
  induction v with
  | nil => simp [sumSq]
  | cons x rest ih =>
    simp only [List.map_cons, List.sum_cons, sumSq] at ih ⊢
    rw [ih, div_mul_div_comm, div_add_div_same]
    push_cast
    ring_nf

theorem l2Magnitude_l2Normalize (v : List ℚ) (h : sumSq v ≠ 0) :
    l2Magnitude (l2Normalize v) = 1 := by
  have hpos : 0 < sumSq v := lt_of_le_of_ne (sumSq_nonneg v) (Ne.symm h)
  unfold l2Normalize l2Magnitude
  rw [if_neg h, sumSqR_map_div]
  have hs : (0 : ℝ) ≤ ((sumSq v : ℚ) : ℝ) := by exact_mod_cast hpos.le
  rw [Real.mul_self_sqrt hs, div_self (by exact_mod_cast h)]
  exact Real.sqrt_one

theorem sumSq_default : sumSq defaultPreference = 0 := sumSq_replicate_zero 1536

theorem default_cast : castVec defaultPreference = List.replicate 1536 (0 : ℝ) := by
  unfold castVec defaultPreference
  rw [List.map_replicate]
  norm_num

theorem l2Normalize_default :
    l2Normalize defaultPreference = List.replicate 1536 (0 : ℝ) := by
  unfold l2Normalize
  rw [if_pos sumSq_default]
  exact default_cast

theorem l2Magnitude_zeroList : l2Magnitude (List.replicate 1536 (0 : ℝ)) = 0 := by
  unfold l2Magnitude
  rw [List.map_replicate, List.sum_replicate]
  norm_num

theorem totalRecomputeWeight_unknown (rows : List InteractionRow)
    (h : ∀ r ∈ rows, interactionWeights.lookup r.interactionType = none) :
    totalRecomputeWeight rows = 0 := by
  unfold totalRecomputeWeight
  induction rows with
  | nil => simp
  | cons r rest ih =>
    simp only [List.map_cons, List.sum_cons]
    rw [ih (fun x hx => h x (List.mem_cons_of_mem r hx))]
    have hr : recomputeWeight r.interactionType = 0 := by
      unfold recomputeWeight
      rw [h r (List.mem_cons_self r rest)]
      rfl
    rw [hr]
    ring

theorem calcPref_allUnknown (rows : List InteractionRow)
    (h : ∀ r ∈ rows, interactionWeights.lookup r.interactionType = none) :
    calculatePreferenceVector rows = List.replicate 1536 (0 : ℝ) := by
  by_cases hnil : rows = []
  · unfold calculatePreferenceVector
    rw [if_pos hnil]
    exact default_cast
  · have hraw : rawPreference rows = defaultPreference := by
      unfold rawPreference
      rw [if_neg hnil, totalRecomputeWeight_unknown rows h]
      simp
    unfold calculatePreferenceVector
    rw [if_neg hnil]
    split
    · rw [hraw]
      exact l2Normalize_default
    · exact default_cast

theorem prefDimension_wmap (rows : List InteractionRow) (f : InteractionRow → ℚ) :
    prefDimension (rows.map fun r => { r with weight := f r })
      = prefDimension rows := by
  rcases rows with _ | ⟨r0, rest⟩ <;> rfl

theorem totalRecomputeWeight_wmap (rows : List InteractionRow)
    (f : InteractionRow → ℚ) :
    totalRecomputeWeight (rows.map fun r => { r with weight := f r })
      = totalRecomputeWeight rows := by
  unfold totalRecomputeWeight
  rw [List.map_map]
  rfl

theorem weightedComponent_wmap (rows : List InteractionRow)
    (f : InteractionRow → ℚ) (i : ℕ) :
    weightedComponent (rows.map fun r => { r with weight := f r }) i
      = weightedComponent rows i := by
  unfold weightedComponent
  rw [List.map_map]
  rfl

theorem rawPreference_wmap (rows : List InteractionRow) (f : InteractionRow → ℚ) :
    rawPreference (rows.map fun r => { r with weight := f r })
      = rawPreference rows := by
  by_cases hn : rows = []
  · subst hn
    rfl
  · unfold rawPreference
    rw [if_neg (fun hmap => hn (List.map_eq_nil_iff.mp hmap)), if_neg hn,
      totalRecomputeWeight_wmap, prefDimension_wmap]
    by_cases hw : 0 < totalRecomputeWeight rows
    · rw [if_pos hw, if_pos hw]
      apply List.map_congr_left
      intro i _
      rw [weightedComponent_wmap]
    · rw [if_neg hw, if_neg hw]

theorem calcPref_wmap (rows : List InteractionRow) (f : InteractionRow → ℚ) :
    calculatePreferenceVector (rows.map fun r => { r with weight := f r })
      = calculatePreferenceVector rows := by
  by_cases hn : rows = []
  · subst hn
    rfl
  · unfold calculatePreferenceVector
    rw [if_neg (fun hmap => hn (List.map_eq_nil_iff.mp hmap)), if_neg hn,
      prefDimension_wmap]
    have hall : ((rows.map fun r => { r with weight := f r }).all
          fun r => prefDimension rows ≤ r.embedding.length)
        = (rows.all fun r => prefDimension rows ≤ r.embedding.length) := by
      rw [List.all_map]
      rfl
    rw [hall]
    by_cases hc : (rows.all fun r => prefDimension rows ≤ r.embedding.length) = true
    · rw [if_pos hc, if_pos hc, rawPreference_wmap]
    · rw [if_neg hc, if_neg hc]

/-! ## Claims -/

/-- C3, counterexample.  The claim says a synchronous refill is triggered
exactly when `n - (c + k) <` the refill threshold `R`, or when `c ≥ n`.  On a
feed of size 10 with cursor 4 and limit 4 the remainder equals `R = 2`, so the
claim predicts no refill — but `get_feed` compares with `<=` and refills. -/
theorem C3_counterexample :
    refillOccursOnRead 10 4 4 10 = true ∧
    ¬(((10 : ℤ) - ((4 : ℤ) + (4 : ℤ)) < refillThreshold) ∨ 10 ≤ (4 : ℕ)) := by
  decide

/-- C3, amended: a synchronous refill is triggered on a page read exactly when
the number of items remaining after the read, `n - (c + k)`, is less than OR
EQUAL TO the refill threshold `R = 2`, or when `c ≥ n` (which the first
condition subsumes); otherwise no refill occurs before the response. -/
theorem C3_refill_iff (n c k nAfterRefill : ℕ) :
    refillOccursOnRead n c k nAfterRefill = true ↔
      ((n : ℤ) - ((c : ℤ) + (k : ℤ)) ≤ refillThreshold ∨ n ≤ c) := by
  unfold refillOccursOnRead refillThreshold
  by_cases h : (n : ℤ) - ((c : ℤ) + (k : ℤ)) ≤ 2
  · simp [h]
  · have hnc : ¬ n ≤ c := by omega
    simp [h, hnc]

/-- C4, counterexample.  The claim says every `get_feed` response, including
error responses, reports `has_more == true`.  But when a refresh is requested
(or the feed is empty) and `_initialize_infinite_feed` fails, the early-return
response of lines 67-76 reports `has_more == false`. -/
theorem C4_counterexample :
    (getFeed { cursor := 0, limit := 5, refresh := true }
        { feedSize := 7, initResult := none, refillSize := 10 }).hasMore = false := by
  decide

/-- C4, amended: every `get_feed` response reports `has_more == true` — the
main path (including reads whose cursor reaches or exceeds the queue size,
which refill) and the exception response alike — EXCEPT the response produced
when the feed must first be initialized (refresh requested or empty feed) and
that initialization fails, which reports `has_more == false`. -/
theorem C4_hasMore_iff (req : FeedReq) (env : FeedEnv) :
    ((getFeed req env).hasMore = true ↔
      ¬((req.refresh = true ∨ env.feedSize = 0) ∧ env.initResult = none)) ∧
    (getFeedErrorResp req).hasMore = true := by
  refine ⟨?_, rfl⟩
  unfold getFeed
  by_cases hr : req.refresh = true
  · rcases hinit : env.initResult with _ | n1 <;> simp [hr, hinit, getFeedMain_hasMore]
  · by_cases hs : env.feedSize = 0
    · rcases hinit : env.initResult with _ | n1 <;>
        simp [Bool.not_eq_true] at hr <;>
        simp [hr, hs, hinit, getFeedMain_hasMore]
    · simp [Bool.not_eq_true] at hr
      simp [hr, hs, getFeedMain_hasMore]

/-- C7: for every queue state, `get_next_generation_task` returns (if
anything) only a task of type `generate_video` whose status was
`pending_generation` — so `failed` and `in_progress` tasks are never returned
as claimable and failed tasks are never retried automatically — and the
returned task is flipped to `in_progress` with a `started_at` stamp that is
persisted in the queue (same position, same score) before it is returned. -/
theorem C7_claim_only_pending (now : ℚ) (q : List (GenTask × ℚ)) (t' : GenTask)
    (q' : List (GenTask × ℚ)) (h : getNextGenerationTask now q = (some t', q')) :
    ∃ pre t s post,
      q = pre ++ (t, s) :: post ∧
      t.taskType = "generate_video" ∧ t.status = "pending_generation" ∧
      t' = claimTask t now ∧ t'.status = "in_progress" ∧ t'.startedAt = some now ∧
      q' = pre ++ (t', s) :: post := by
  obtain ⟨pre, t, s, post, hq, h1, h2, h3, h4⟩ := getNext_spec now q t' q' h
  exact ⟨pre, t, s, post, hq, h1, h2, h3, by rw [h3]; rfl, by rw [h3]; rfl,
    by rw [h3]; exact h4⟩

/-- C7, witness: on a queue holding a higher-priority `failed` task and a
lower-priority pending task, the pending one is claimed. -/
theorem C7_witness :
    (getNextGenerationTask 7
        [({ taskType := "generate_video", prompt := "a", status := "failed",
            startedAt := none, userId := "u" }, 5),
         ({ taskType := "generate_video", prompt := "b", status := "pending_generation",
            startedAt := none, userId := "u" }, 3)]
      = (some { taskType := "generate_video", prompt := "b", status := "in_progress",
                startedAt := some 7, userId := "u" },
         [({ taskType := "generate_video", prompt := "a", status := "failed",
             startedAt := none, userId := "u" }, 5),
          ({ taskType := "generate_video", prompt := "b", status := "in_progress",
             startedAt := some 7, userId := "u" }, 3)])) ∧
    (∃ pre t s post,
      [({ taskType := "generate_video", prompt := "a", status := "failed",
          startedAt := none, userId := "u" }, 5),
       ({ taskType := "generate_video", prompt := "b", status := "pending_generation",
          startedAt := none, userId := "u" }, (3 : ℚ))] = pre ++ (t, s) :: post ∧
      t.taskType = "generate_video" ∧ t.status = "pending_generation" ∧
      ({ taskType := "generate_video", prompt := "b", status := "in_progress",
         startedAt := some 7, userId := "u" } : GenTask) = claimTask t 7 ∧
      ({ taskType := "generate_video", prompt := "b", status := "in_progress",
         startedAt := some 7, userId := "u" } : GenTask).status = "in_progress" ∧
      ({ taskType := "generate_video", prompt := "b", status := "in_progress",
         startedAt := some 7, userId := "u" } : GenTask).startedAt = some 7 ∧
      [({ taskType := "generate_video", prompt := "a", status := "failed",
          startedAt := none, userId := "u" }, 5),
       ({ taskType := "generate_video", prompt := "b", status := "in_progress",
          startedAt := some 7, userId := "u" }, (3 : ℚ))] =
        pre ++ ({ taskType := "generate_video", prompt := "b", status := "in_progress",
                  startedAt := some 7, userId := "u" }, s) :: post) :=
  ⟨by decide, C7_claim_only_pending 7 _ _ _ (by decide)⟩

/-- C8: one run of `reset_stuck_tasks` resets exactly the `generate_video`
tasks that are `in_progress` with a `started_at` stamp older than the max-age
threshold — their status goes back to `pending_generation` and `started_at` is
removed, at an unchanged queue score — leaves every other entry (younger
tasks, other statuses, other types) unchanged, and returns the number of tasks
it reset. -/
theorem C8_resetStuckTasks (now maxAge : ℚ) (q : List (GenTask × ℚ)) :
    (resetStuckTasks now maxAge q).1 = q.countP (fun p => isStuck now maxAge p.1) ∧
    (resetStuckTasks now maxAge q).2 =
      q.map (fun p => if isStuck now maxAge p.1 then (resetTask p.1, p.2) else p) ∧
    (∀ t : GenTask, (resetTask t).status = "pending_generation" ∧
      (resetTask t).startedAt = none ∧ (resetTask t).taskType = t.taskType ∧
      (resetTask t).prompt = t.prompt ∧ (resetTask t).userId = t.userId) := by
  refine ⟨?_, ?_, fun t => ⟨rfl, rfl, rfl, rfl, rfl⟩⟩
  · induction q with
    | nil => simp [resetStuckTasks]
    | cons hd rest ih =>
      obtain ⟨t0, s0⟩ := hd
      simp only [resetStuckTasks, List.countP_cons]
      by_cases hc : isStuck now maxAge t0 = true
      · simp [hc, ih]
      · simp [hc, ih]
  · induction q with
    | nil => simp [resetStuckTasks]
    | cons hd rest ih =>
      obtain ⟨t0, s0⟩ := hd
      simp only [resetStuckTasks, List.map_cons]
      by_cases hc : isStuck now maxAge t0 = true
      · simp [hc, ih]
      · simp [hc, ih]

/-- C10: claiming a task rewrites exactly one queue entry in place via
remove-then-reinsert at the same priority score (prefix and suffix of the
queue are untouched), and resetting stuck tasks rewrites each stuck entry in
place at its own unchanged score while every non-stuck entry keeps its payload
and score. -/
theorem C10_rewrite_frame :
    (∀ (now : ℚ) (q : List (GenTask × ℚ)) (t' : GenTask) (q' : List (GenTask × ℚ)),
        getNextGenerationTask now q = (some t', q') →
        ∃ pre t s post, q = pre ++ (t, s) :: post ∧ q' = pre ++ (t', s) :: post) ∧
    (∀ (now maxAge : ℚ) (q : List (GenTask × ℚ)),
        List.Forall₂ (fun a b : GenTask × ℚ => b.2 = a.2 ∧
            (isStuck now maxAge a.1 = true → b = (resetTask a.1, a.2)) ∧
            (isStuck now maxAge a.1 = false → b = a))
          q (resetStuckTasks now maxAge q).2) := by
  constructor
  · intro now q t' q' h
    obtain ⟨pre, t, s, post, hq, _, _, h3, h4⟩ := getNext_spec now q t' q' h
    exact ⟨pre, t, s, post, hq, by rw [h3]; exact h4⟩
  · intro now maxAge q
    induction q with
    | nil => simp [resetStuckTasks]
    | cons hd rest ih =>
      obtain ⟨t0, s0⟩ := hd
      simp only [resetStuckTasks]
      by_cases hc : isStuck now maxAge t0 = true
      · simp only [hc, if_true]
        exact List.Forall₂.cons
          ⟨rfl, fun _ => rfl, fun hf => by rw [hc] at hf; cases hf⟩ ih
      · rw [if_neg (by simp [hc])]
        exact List.Forall₂.cons
          ⟨rfl, fun ht => absurd ht hc, fun _ => rfl⟩ ih

/-- C10, witness: claiming the only pending task of a two-entry queue
rewrites that entry and leaves the other untouched. -/
theorem C10_witness :
    (getNextGenerationTask 2
        [({ taskType := "existing_video", prompt := "e", status := "ready",
            startedAt := none, userId := "w" }, 9),
         ({ taskType := "generate_video", prompt := "x", status := "pending_generation",
            startedAt := none, userId := "w" }, 1)]
      = (some { taskType := "generate_video", prompt := "x", status := "in_progress",
                startedAt := some 2, userId := "w" },
         [({ taskType := "existing_video", prompt := "e", status := "ready",
             startedAt := none, userId := "w" }, 9),
          ({ taskType := "generate_video", prompt := "x", status := "in_progress",
             startedAt := some 2, userId := "w" }, 1)])) ∧
    (∃ pre t s post,
      ([({ taskType := "existing_video", prompt := "e", status := "ready",
           startedAt := none, userId := "w" }, 9),
        ({ taskType := "generate_video", prompt := "x", status := "pending_generation",
           startedAt := none, userId := "w" }, (1 : ℚ))] : List (GenTask × ℚ))
        = pre ++ (t, s) :: post ∧
      ([({ taskType := "existing_video", prompt := "e", status := "ready",
           startedAt := none, userId := "w" }, 9),
        ({ taskType := "generate_video", prompt := "x", status := "in_progress",
           startedAt := some 2, userId := "w" }, (1 : ℚ))] : List (GenTask × ℚ)) =
        pre ++ ({ taskType := "generate_video", prompt := "x", status := "in_progress",
                  startedAt := some 2, userId := "w" }, s) :: post) :=
  ⟨by decide, C10_rewrite_frame.1 2 _ _ _ (by decide)⟩

/-- C5: `add_to_feed` is idempotent in membership — on a feed whose member
ids are unique, adding `(id, s)` twice in a row leaves the feed exactly as one
add does, with exactly one entry for `id`, carrying score `s`; both calls
return success, and re-adding an existing id with a new score `s'` updates the
score while still returning success and keeping a single entry. -/
theorem C5_add_idempotent (f : Feed) (id : String) (s s' : ℚ)
    (hnd : (f.map Prod.fst).Nodup) :
    (addToFeed f id s).1 = true ∧
    (addToFeed (addToFeed f id s).2 id s).2 = (addToFeed f id s).2 ∧
    ((addToFeed (addToFeed f id s).2 id s).2.countP (fun p => p.1 == id)) = 1 ∧
    (id, s) ∈ (addToFeed (addToFeed f id s).2 id s).2 ∧
    (addToFeed (addToFeed f id s).2 id s').1 = true ∧
    (id, s') ∈ (addToFeed (addToFeed f id s).2 id s').2 ∧
    ((addToFeed (addToFeed f id s).2 id s').2.countP (fun p => p.1 == id)) = 1 := by
  refine ⟨rfl, ?_, ?_, ?_, rfl, ?_, ?_⟩
  · show zaddFeed (zaddFeed f id s) id s = zaddFeed f id s
    rw [zadd_zadd]
  · show (zaddFeed (zaddFeed f id s) id s).countP (fun p => p.1 == id) = 1
    rw [zadd_zadd]
    exact countP_zadd f id s hnd
  · show (id, s) ∈ zaddFeed (zaddFeed f id s) id s
    rw [zadd_zadd]
    exact mem_zadd f id s
  · show (id, s') ∈ zaddFeed (zaddFeed f id s) id s'
    rw [zadd_zadd]
    exact mem_zadd f id s'
  · show (zaddFeed (zaddFeed f id s) id s').countP (fun p => p.1 == id) = 1
    rw [zadd_zadd]
    exact countP_zadd f id s' hnd

/-- C5, witness: adding `("v1", 0.5)` twice to the one-entry feed
`[("a", 1)]` leaves exactly one `"v1"` entry with score 0.5. -/
theorem C5_witness :
    (([(("a" : String), (1 : ℚ))].map Prod.fst).Nodup) ∧
    ((addToFeed [("a", 1)] "v1" (1/2)).1 = true ∧
     (addToFeed (addToFeed [("a", 1)] "v1" (1/2)).2 "v1" (1/2)).2
        = (addToFeed [("a", 1)] "v1" (1/2)).2 ∧
     ((addToFeed (addToFeed [("a", 1)] "v1" (1/2)).2 "v1" (1/2)).2.countP
        (fun p => p.1 == "v1")) = 1 ∧
     ("v1", (1/2 : ℚ)) ∈ (addToFeed (addToFeed [("a", 1)] "v1" (1/2)).2 "v1" (1/2)).2 ∧
     (addToFeed (addToFeed [("a", 1)] "v1" (1/2)).2 "v1" 2).1 = true ∧
     ("v1", (2 : ℚ)) ∈ (addToFeed (addToFeed [("a", 1)] "v1" (1/2)).2 "v1" 2).2 ∧
     ((addToFeed (addToFeed [("a", 1)] "v1" (1/2)).2 "v1" 2).2.countP
        (fun p => p.1 == "v1")) = 1) :=
  ⟨by decide, C5_add_idempotent [("a", 1)] "v1" (1/2) 2 (by decide)⟩

/-- C2, counterexample.  The claim says the feed queue never exceeds the
target size T = 10 after any orchestrator or worker insertion.  But the
worker's `_add_generated_video_to_feed` and the orchestrator's
`_add_top_existing_videos_to_feed` insert without any eviction: on a feed
already holding 10 entries each pushes the size to 11. -/
theorem C2_counterexample :
    (addGeneratedVideoToFeed
      [("v0", 1), ("v1", 2), ("v2", 3), ("v3", 4), ("v4", 5),
       ("v5", 6), ("v6", 7), ("v7", 8), ("v8", 9), ("v9", 10)] "vnew").length = 11 ∧
    (addTopExistingVideosToFeed
      [("v0", 1), ("v1", 2), ("v2", 3), ("v3", 4), ("v4", 5),
       ("v5", 6), ("v6", 7), ("v7", 8), ("v8", 9), ("v9", 10)]
      [("w1", 1/2)] (1/5) 2).length = 11 ∧
    targetFeedSize < 11 := by
  decide

/-- C2, amended: only the forced-selection insertion path evicts — when
`_clear_feed_space_for_new_videos` runs before inserting `n ≤ T` videos, the
lowest-ranked entries are evicted first and the queue ends at no more than the
target size T = 10; the insertions performed by
`_add_top_existing_videos_to_feed` and by the worker's
`_add_generated_video_to_feed` evict nothing and can leave the queue above
T. -/
theorem C2_clear_then_insert_bounded (f : Feed) (vids : List (String × ℚ))
    (hv : vids.length ≤ targetFeedSize) :
    (addVideosToUserFeed (clearFeedSpaceForNewVideos f vids.length) vids).length
      ≤ targetFeedSize := by
  have h1 := clearFeedSpace_length f vids.length hv
  have h2 := addVideos_length_le vids (clearFeedSpaceForNewVideos f vids.length)
  omega

/-- C2, witness: clearing space for two fresh videos on a one-entry feed and
inserting them stays within the 10-entry target. -/
theorem C2_witness :
    ([(("b" : String), (2 : ℚ)), ("c", 3)].length ≤ targetFeedSize) ∧
    (addVideosToUserFeed
        (clearFeedSpaceForNewVideos [("a", 1)] [(("b" : String), (2 : ℚ)), ("c", 3)].length)
        [("b", 2), ("c", 3)]).length ≤ targetFeedSize :=
  ⟨by decide, C2_clear_then_insert_bounded [("a", 1)] [("b", 2), ("c", 3)] (by decide)⟩

/-- C6: a preference-driven refresh enqueues at most one new pending
generation task, whatever the LLM responds and however many candidate prompts
were retrieved — `_generate_single_prompt_with_llm` yields at most one
prompt, `_add_prompts_to_generation_queue` adds exactly one
`pending_generation` task per prompt — and the context handed to the LLM is
the top `min 5` of the retrieved candidate prompts. -/
theorem C6_at_most_one_new_task (user : String) (respText : Option String)
    (existingPrompts : List String) (q : List (GenTask × ℚ)) :
    (generateSinglePromptWithLLM respText).length ≤ 1 ∧
    (generateSingleNewVideoQueue user respText q).length
      = q.length + (generateSinglePromptWithLLM respText).length ∧
    ((generateSingleNewVideoQueue user respText q).countP (fun p => isPendingGeneration p.1))
      = (q.countP fun p => isPendingGeneration p.1)
        + (generateSinglePromptWithLLM respText).length ∧
    (generateSingleNewVideoQueue user respText q).length ≤ q.length + 1 ∧
    (referencePromptsForSingleVideo existingPrompts).length
      = min 5 existingPrompts.length ∧
    List.Sublist (referencePromptsForSingleVideo existingPrompts) existingPrompts := by
  have hlen : (generateSinglePromptWithLLM respText).length ≤ 1 := by
    rcases respText with _ | text
    · simp [generateSinglePromptWithLLM]
    · simp only [generateSinglePromptWithLLM, cleanSinglePrompt]
      have haux : ∀ t1 : String,
          (if t1 = "" then ([] : List String) else [t1]).length ≤ 1 := by
        intro t1
        split <;> simp
      split
      · split
        · exact haux _
        · exact haux _
      · exact haux _
  refine ⟨hlen, ?_, ?_, ?_, ?_, ?_⟩
  · simp [generateSingleNewVideoQueue, addPromptsToGenerationQueue]
  · simp only [generateSingleNewVideoQueue, addPromptsToGenerationQueue,
      List.countP_append]
    have : ((generateSinglePromptWithLLM respText).enum.map
        (fun ip => (mkGenerationTask user ip.2,
          (((generateSinglePromptWithLLM respText).length - ip.1 : ℕ) : ℚ)))).countP
          (fun p => isPendingGeneration p.1)
        = (generateSinglePromptWithLLM respText).length := by
      rw [List.countP_eq_length.mpr]
      · rw [List.length_map, List.enum_length]
      · intro p hp
        simp only [List.mem_map] at hp
        obtain ⟨ip, _, rfl⟩ := hp
        rfl
    rw [this]
  · have : (generateSingleNewVideoQueue user respText q).length
        = q.length + (generateSinglePromptWithLLM respText).length := by
      simp [generateSingleNewVideoQueue, addPromptsToGenerationQueue]
    omega
  · simp [referencePromptsForSingleVideo]
  · exact List.take_sublist 5 existingPrompts

/-- C1, counterexample.  The claim says every non-empty interaction window
produces a preference vector of L2 magnitude within 1e-6 of 1.  But a
non-empty window whose only interaction has a type outside the weight table
gets recompute weight 0, so `total_weight = 0` and the recompute falls back to
the all-zero default vector, whose magnitude is 0. -/
theorem C1_counterexample :
    ([mkInteractionRow "weird" [1, 0]] ≠ ([] : List InteractionRow)) ∧
    ¬(|l2Magnitude (calculatePreferenceVector [mkInteractionRow "weird" [1, 0]]) - 1|
        ≤ 1 / 1000000) := by
  constructor
  · simp
  · have h : calculatePreferenceVector [mkInteractionRow "weird" [1, 0]]
        = List.replicate 1536 (0 : ℝ) :=
      calcPref_allUnknown _ (by decide)
    rw [h, l2Magnitude_zeroList]
    norm_num

/-- C1, amended: for a non-empty interaction window whose embeddings all reach
the first row's dimension and whose weighted-average (pre-normalisation)
vector is non-zero — in particular the window holds at least one known-type
interaction — the recomputed preference vector has L2 magnitude exactly 1,
hence within 1e-6 of 1.0; a window with total recompute weight zero (e.g. only
unknown interaction types) or a zero weighted average instead yields the
all-zero vector, and an empty window yields the all-zero vector. -/
theorem C1_magnitude :
    (∀ rows : List InteractionRow, rows ≠ [] →
        (rows.all fun r => prefDimension rows ≤ r.embedding.length) = true →
        sumSq (rawPreference rows) ≠ 0 →
        |l2Magnitude (calculatePreferenceVector rows) - 1| ≤ 1 / 1000000) ∧
    calculatePreferenceVector [] = List.replicate 1536 (0 : ℝ) := by
  constructor
  · intro rows hne hall hraw
    have hcalc : calculatePreferenceVector rows = l2Normalize (rawPreference rows) := by
      unfold calculatePreferenceVector
      rw [if_neg hne, if_pos hall]
    rw [hcalc, l2Magnitude_l2Normalize _ hraw]
    norm_num
  · unfold calculatePreferenceVector
    rw [if_pos rfl]
    exact default_cast

/-- C1, witness: a single "like" on embedding `[3, 4]` yields the vector
`[3/5, 4/5]`, of magnitude exactly 1. -/
theorem C1_witness :
    (([mkInteractionRow "like" [3, 4]] : List InteractionRow) ≠ []) ∧
    (([mkInteractionRow "like" [3, 4]].all
        fun r => prefDimension [mkInteractionRow "like" [3, 4]] ≤ r.embedding.length)
      = true) ∧
    sumSq (rawPreference [mkInteractionRow "like" [3, 4]]) ≠ 0 ∧
    |l2Magnitude (calculatePreferenceVector [mkInteractionRow "like" [3, 4]]) - 1|
      ≤ 1 / 1000000 := by
  have hraw : sumSq (rawPreference [mkInteractionRow "like" [3, 4]]) ≠ 0 := by
    have h : rawPreference [mkInteractionRow "like" [3, 4]] = [3, 4] := by
      norm_num [rawPreference, prefDimension, totalRecomputeWeight, weightedComponent,
        recomputeWeight, interactionWeights, mkInteractionRow, getInteractionWeight,
        List.lookup, List.range_succ]
    rw [h]
    norm_num [sumSq]
  exact ⟨by decide, by decide, hraw,
    C1_magnitude.1 [mkInteractionRow "like" [3, 4]] (by decide) (by decide) hraw⟩

/-- C9: an interaction of a type outside the weight table is persisted with the
default weight 0.5, while the preference recompute gives such a row weight 0;
the stored weight column never influences the recomputed preference vector
(recomputation reads only interaction types and embeddings); and a window of
only unknown-type interactions yields the all-zero preference vector. -/
theorem C9_unknown_type_weights :
    (∀ (t : String) (emb : List ℚ), interactionWeights.lookup t = none →
        (mkInteractionRow t emb).weight = 1 / 2) ∧
    (∀ t : String, interactionWeights.lookup t = none → recomputeWeight t = 0) ∧
    (∀ (rows : List InteractionRow) (f : InteractionRow → ℚ),
        calculatePreferenceVector (rows.map fun r => { r with weight := f r })
          = calculatePreferenceVector rows) ∧
    (∀ rows : List InteractionRow,
        (∀ r ∈ rows, interactionWeights.lookup r.interactionType = none) →
        calculatePreferenceVector rows = List.replicate 1536 (0 : ℝ)) := by
  refine ⟨?_, ?_, calcPref_wmap, calcPref_allUnknown⟩
  · intro t emb h
    show getInteractionWeight t = 1 / 2
    unfold getInteractionWeight
    rw [h]
    rfl
  · intro t h
    unfold recomputeWeight
    rw [h]
    rfl

/-- C9, witness: the unknown type "superlike" is stored with weight 0.5,
recomputed with weight 0; overriding every stored weight with 7 leaves the
recompute unchanged; and a window of one "superlike" interaction yields the
zero vector. -/
theorem C9_witness :
    (interactionWeights.lookup "superlike" = none) ∧
    (mkInteractionRow "superlike" [1, 0]).weight = 1 / 2 ∧
    recomputeWeight "superlike" = 0 ∧
    calculatePreferenceVector
        ([mkInteractionRow "like" [1]].map fun r => { r with weight := (7 : ℚ) })
      = calculatePreferenceVector [mkInteractionRow "like" [1]] ∧
    calculatePreferenceVector [mkInteractionRow "superlike" [1, 0]]
      = List.replicate 1536 (0 : ℝ) :=
  ⟨by decide,
    C9_unknown_type_weights.1 "superlike" [1, 0] (by decide),
    C9_unknown_type_weights.2.1 "superlike" (by decide),
    C9_unknown_type_weights.2.2.1 [mkInteractionRow "like" [1]] (fun _ => (7 : ℚ)),
    C9_unknown_type_weights.2.2.2 [mkInteractionRow "superlike" [1, 0]] (by decide)⟩

end Slop
